import Mathlib

/-
Verification model of the libvirt metrics collector of coroot-node-agent
(src/node/libvirtcollector.go together with the metric descriptors of
src/node/libvirtmetrics.go).  Every definition below is a shallow
embedding of the corresponding Go code: machine integers become Nat/Int,
float64 metric values become exact rationals, the prometheus channel
becomes an ordered list of emitted measurements, and each fallible
hypervisor call becomes an `Except` value supplied as input.
-/

/-- Metric descriptors, one constructor per `prometheus.NewDesc` variable of
src/node/libvirtmetrics.go. -/
inductive MetricDesc where
  | versionsInfo
  | domainInfoMeta
  | domainInfoMaxMem
  | domainInfoMemoryUsage
  | domainInfoNrVirtCpu
  | domainInfoCpuTime
  | domainInfoVState
  | vcpuState
  | vcpuTime
  | vcpuCpu
  | vcpuWait
  | vcpuDelay
  | blockMeta
  | blockRdBytes
  | blockRdReq
  | blockRdTime
  | blockWrBytes
  | blockWrReq
  | blockWrTime
  | blockFlushReq
  | blockFlushTime
  | blockAllocation
  | blockCapacity
  | blockPhysical
  | blockTotalBytesSec
  | blockReadBytesSec
  | blockWriteBytesSec
  | blockTotalIopsSec
  | blockReadIopsSec
  | blockWriteIopsSec
  | blockTotalBytesSecMax
  | blockReadBytesSecMax
  | blockWriteBytesSecMax
  | blockTotalIopsSecMax
  | blockReadIopsSecMax
  | blockWriteIopsSecMax
  | blockTotalBytesSecMaxLength
  | blockReadBytesSecMaxLength
  | blockWriteBytesSecMaxLength
  | blockTotalIopsSecMaxLength
  | blockReadIopsSecMaxLength
  | blockWriteIopsSecMaxLength
  | blockSizeIopsSec
  | interfaceMeta
  | ifaceRxBytes
  | ifaceRxPackets
  | ifaceRxErrs
  | ifaceRxDrop
  | ifaceTxBytes
  | ifaceTxPackets
  | ifaceTxErrs
  | ifaceTxDrop
  | memMajorFault
  | memMinorFault
  | memUnused
  | memAvailable
  | memActualBalloon
  | memRss
  | memUsable
  | memDiskCaches
  | memUsedPercent
  | poolCapacity
  | poolAllocation
  | poolAvailable
  deriving DecidableEq, BEq, Repr

/-- Metric kind: `prometheus.CounterValue` or `prometheus.GaugeValue`. -/
inductive MetricKind where
  | counter
  | gauge
  deriving DecidableEq, BEq, Repr

/-- One value sent to the prometheus channel by `MustNewConstMetric`:
descriptor, kind, numeric value (float64 modelled as an exact rational) and
the ordered label values. -/
structure Measurement where
  desc : MetricDesc
  kind : MetricKind
  value : ℚ
  labels : List String
  deriving DecidableEq, BEq, Repr

/-- Libvirt error codes distinguished by the collector, plus the zero code
`errOK` (the value of `libvirt.Error{}.Code` after a failed type assertion)
and a stand-in for every other code. -/
inductive LvErrCode where
  | errOK
  | errOperationInvalid
  | errOperationUnsupported
  | errOtherCode
  deriving DecidableEq, BEq, Repr

/-- Zero value of `libvirt.Error` obtained when the type assertion
`err.(libvirt.Error)` fails: its `Code` field is 0, i.e. `errOK`. -/
def zeroLvCode : LvErrCode := .errOK

/-- Go `error` as seen by the collector: either a `libvirt.Error` (so the
type assertion `err.(libvirt.Error)` succeeds and yields its code) or any
other error value (the assertion fails). -/
inductive GoError where
  | libvirtErr (code : LvErrCode) (msg : String)
  | otherErr (msg : String)
  deriving DecidableEq, BEq, Repr

/-- Process-wide logging state: the lines written by `log.Printf` in order,
and the key set of the `errorsMap` deduplication map (modelled as a list
used as a set; the source declares the map but never initializes it, which
is immaterial here because, as proved below, the only call site of
`WriteErrorOnce` is unreachable). -/
structure LogState where
  logLines : List String
  errorsMap : List String
  deriving DecidableEq, BEq, Repr

/-- Model of `WriteErrorOnce` (libvirtcollector.go lines 81 to 86): log the
message and record the tag only when the tag is not yet in `errorsMap`. -/
def WriteErrorOnce (err : String) (name : String) (st : LogState) : LogState :=
  if name ∈ st.errorsMap then st
  else { logLines := st.logLines ++ [err], errorsMap := st.errorsMap ++ [name] }

/-- Outcome of a collector function: normal completion, `return err`, or a
Go runtime panic from dereferencing a nil pointer. -/
inductive Outcome where
  | ok
  | fail (e : GoError)
  | nilDeref
  deriving DecidableEq, BEq, Repr

/-- Conditional emission helper: the body of every `if X.YSet { ch <- m }`
presence check. -/
def mIf (b : Bool) (m : Measurement) : List Measurement :=
  if b then [m] else []

/-- Decimal formatting of a natural number, the model of
`strconv.FormatInt(int64 n, 10)` for the non-negative values the collector
passes to it (vCPU numbers and slice indices). -/
def formatInt (n : Nat) : String :=
  if n = 0 then "0" else String.mk ((Nat.digits 10 n).reverse.map Nat.digitChar)

/-- Version decoding used three times in `LibvirtSetup`
(libvirtcollector.go lines 25, 31, 37): the packed integer `v` becomes
`(major, minor, patch) = (v/1000000 % 1000, v/1000 % 1000, v % 1000)`. -/
def decodeVersion (v : Nat) : Nat × Nat × Nat :=
  (v / 1000000 % 1000, v / 1000 % 1000, v % 1000)

/-- Re-encoding of a decoded version triple as stated by the spec:
`major * 1000000 + minor * 1000 + patch`. -/
def encodeVersion (t : Nat × Nat × Nat) : Nat :=
  t.1 * 1000000 + t.2.1 * 1000 + t.2.2

/-
Descriptor schema (package libvirtSchema, exactly the fields the collector
reads from the unmarshalled domain XML).
-/

/-- Disk target element of the domain XML: target device name and bus. -/
structure DiskTarget where
  Device : String
  Bus : String
  deriving DecidableEq, BEq, Repr

/-- Disk source element: source name used as the fallback source path. -/
structure DiskSource where
  Name : String
  deriving DecidableEq, BEq, Repr

/-- Disk driver element; the Go field `Type` is rendered `DriverType` here
because `Type` is reserved in Lean. -/
structure DiskDriver where
  DriverType : String
  Cache : String
  Discard : String
  deriving DecidableEq, BEq, Repr

/-- Disk entry of the domain descriptor (libvirtSchema.Disk), restricted to
the fields CollectDomain reads. -/
structure Disk where
  Serial : String
  Target : DiskTarget
  Source : DiskSource
  DiskType : String
  Driver : DiskDriver
  deriving DecidableEq, BEq, Repr

/-- Interface target element: target device name. -/
structure InterfaceTarget where
  Device : String
  deriving DecidableEq, BEq, Repr

/-- Interface source element: source bridge name. -/
structure InterfaceSource where
  Bridge : String
  deriving DecidableEq, BEq, Repr

/-- Virtualport parameters element: interface id. -/
structure VirtualportParams where
  InterfaceID : String
  deriving DecidableEq, BEq, Repr

/-- Virtualport element of an interface. -/
structure Virtualport where
  Parameters : VirtualportParams
  deriving DecidableEq, BEq, Repr

/-- Network interface entry of the domain descriptor. -/
structure NetInterface where
  Target : InterfaceTarget
  Source : InterfaceSource
  Virtualport : Virtualport
  deriving DecidableEq, BEq, Repr

/-- Nova user metadata. -/
structure NovaUser where
  UserName : String
  UserUUID : String
  deriving DecidableEq, BEq, Repr

/-- Nova project metadata. -/
structure NovaProject where
  ProjectName : String
  ProjectUUID : String
  deriving DecidableEq, BEq, Repr

/-- Nova owner metadata. -/
structure NovaOwner where
  User : NovaUser
  Project : NovaProject
  deriving DecidableEq, BEq, Repr

/-- Nova flavor metadata. -/
structure NovaFlavor where
  FlavorName : String
  deriving DecidableEq, BEq, Repr

/-- Nova root volume metadata. -/
structure NovaRoot where
  RootType : String
  RootUUID : String
  deriving DecidableEq, BEq, Repr

/-- Nova instance metadata block of the domain descriptor. -/
structure NovaInstance where
  NovaName : String
  Flavor : NovaFlavor
  Owner : NovaOwner
  Root : NovaRoot
  deriving DecidableEq, BEq, Repr

/-- Metadata element of the domain descriptor. -/
structure DomainMetadata where
  NovaInstance : NovaInstance
  deriving DecidableEq, BEq, Repr

/-- Devices element of the domain descriptor. -/
structure DomainDevices where
  Disks : List Disk
  Interfaces : List NetInterface
  deriving DecidableEq, BEq, Repr

/-- Domain descriptor (libvirtSchema.Domain) as decoded from GetXMLDesc. -/
structure DomainXml where
  Devices : DomainDevices
  Metadata : DomainMetadata
  deriving DecidableEq, BEq, Repr

/-
Bulk statistics structures (the fields of the libvirt Go binding structs
that CollectDomain reads).
-/

/-- Result of `stat.Domain.GetInfo()`, fields as read by CollectDomain. -/
structure DomainInfo where
  MaxMem : Nat
  Memory : Nat
  NrVirtCpu : Nat
  CpuTime : Nat
  State : Nat
  deriving DecidableEq, BEq, Repr

/-- One entry of the `stat.Domain.GetVcpus()` result. -/
structure VcpuInfo where
  Number : Nat
  State : Int
  CpuTime : Nat
  Cpu : Int
  deriving DecidableEq, BEq, Repr

/-- One entry of the bulk stat's per-vCPU array `stat.Vcpu`, restricted to
the wait and delay fields the collector reads. -/
structure DomainStatsVcpu where
  WaitSet : Bool
  Wait : Nat
  DelaySet : Bool
  Delay : Nat
  deriving DecidableEq, BEq, Repr

/-- One entry of the bulk stat's block device array `stat.Block`. -/
structure DomainStatsBlock where
  Name : String
  PathSet : Bool
  Path : String
  RdBytesSet : Bool
  RdBytes : Nat
  RdReqsSet : Bool
  RdReqs : Nat
  RdTimesSet : Bool
  RdTimes : Nat
  WrBytesSet : Bool
  WrBytes : Nat
  WrReqsSet : Bool
  WrReqs : Nat
  WrTimesSet : Bool
  WrTimes : Nat
  FlReqsSet : Bool
  FlReqs : Nat
  FlTimesSet : Bool
  FlTimes : Nat
  AllocationSet : Bool
  Allocation : Nat
  CapacitySet : Bool
  Capacity : Nat
  PhysicalSet : Bool
  Physical : Nat
  deriving DecidableEq, BEq, Repr

/-- Result of `stat.Domain.GetBlockIoTune(diskName, 0)`: the nineteen
independently optional throttle fields, each with its presence flag. -/
structure BlockIoTuneParams where
  TotalBytesSecSet : Bool
  TotalBytesSec : Nat
  ReadBytesSecSet : Bool
  ReadBytesSec : Nat
  WriteBytesSecSet : Bool
  WriteBytesSec : Nat
  TotalIopsSecSet : Bool
  TotalIopsSec : Nat
  ReadIopsSecSet : Bool
  ReadIopsSec : Nat
  WriteIopsSecSet : Bool
  WriteIopsSec : Nat
  TotalBytesSecMaxSet : Bool
  TotalBytesSecMax : Nat
  ReadBytesSecMaxSet : Bool
  ReadBytesSecMax : Nat
  WriteBytesSecMaxSet : Bool
  WriteBytesSecMax : Nat
  TotalIopsSecMaxSet : Bool
  TotalIopsSecMax : Nat
  ReadIopsSecMaxSet : Bool
  ReadIopsSecMax : Nat
  WriteIopsSecMaxSet : Bool
  WriteIopsSecMax : Nat
  TotalBytesSecMaxLengthSet : Bool
  TotalBytesSecMaxLength : Nat
  ReadBytesSecMaxLengthSet : Bool
  ReadBytesSecMaxLength : Nat
  WriteBytesSecMaxLengthSet : Bool
  WriteBytesSecMaxLength : Nat
  TotalIopsSecMaxLengthSet : Bool
  TotalIopsSecMaxLength : Nat
  ReadIopsSecMaxLengthSet : Bool
  ReadIopsSecMaxLength : Nat
  WriteIopsSecMaxLengthSet : Bool
  WriteIopsSecMaxLength : Nat
  SizeIopsSecSet : Bool
  SizeIopsSec : Nat
  deriving DecidableEq, BEq, Repr

/-- One entry of the bulk stat's network interface array `stat.Net`. -/
structure DomainStatsNet where
  Name : String
  RxBytesSet : Bool
  RxBytes : Nat
  RxPktsSet : Bool
  RxPkts : Nat
  RxErrsSet : Bool
  RxErrs : Nat
  RxDropSet : Bool
  RxDrop : Nat
  TxBytesSet : Bool
  TxBytes : Nat
  TxPktsSet : Bool
  TxPkts : Nat
  TxErrsSet : Bool
  TxErrs : Nat
  TxDropSet : Bool
  TxDrop : Nat
  deriving DecidableEq, BEq, Repr

/-- One (tag, value) pair of the `stat.Domain.MemoryStats(11, 0)` result. -/
structure DomainMemoryStat where
  Tag : Int
  Val : Nat
  deriving DecidableEq, BEq, Repr

/-- Decoded memory statistics, libvirtSchema.VirDomainMemoryStats. -/
structure VirDomainMemoryStats where
  MajorFault : Nat
  MinorFault : Nat
  Unused : Nat
  Available : Nat
  ActualBalloon : Nat
  Rss : Nat
  Usable : Nat
  DiskCaches : Nat
  deriving DecidableEq, BEq, Repr

/-- Zero value of VirDomainMemoryStats, the state of the Go declaration
`var MemoryStats libvirtSchema.VirDomainMemoryStats`. -/
def VirDomainMemoryStats.zero : VirDomainMemoryStats :=
  ⟨0, 0, 0, 0, 0, 0, 0, 0⟩

/-- Result of `pool.GetInfo()`. -/
structure PoolInfo where
  Capacity : Nat
  Allocation : Nat
  Available : Nat
  deriving DecidableEq, BEq, Repr

/-
The collector proper (libvirtcollector.go).
-/

/-- Switch body of `memoryStatCollect` (lines 91 to 108): one (tag, value)
pair updates the field selected by the tag, every other tag falls through
and leaves the accumulator unchanged. -/
def memoryStatStep (MemoryStats : VirDomainMemoryStats) (s : DomainMemoryStat) :
    VirDomainMemoryStats :=
  if s.Tag = 2 then { MemoryStats with MajorFault := s.Val }
  else if s.Tag = 3 then { MemoryStats with MinorFault := s.Val }
  else if s.Tag = 4 then { MemoryStats with Unused := s.Val }
  else if s.Tag = 5 then { MemoryStats with Available := s.Val }
  else if s.Tag = 6 then { MemoryStats with ActualBalloon := s.Val }
  else if s.Tag = 7 then { MemoryStats with Rss := s.Val }
  else if s.Tag = 8 then { MemoryStats with Usable := s.Val }
  else if s.Tag = 10 then { MemoryStats with DiskCaches := s.Val }
  else MemoryStats

/-- Model of `memoryStatCollect` (lines 88 to 111): fold the switch over
the (tag, value) pairs, starting from the zero-valued struct. -/
def memoryStatCollect (memorystat : List DomainMemoryStat) : VirDomainMemoryStats :=
  memorystat.foldl memoryStatStep VirDomainMemoryStats.zero

/-- Used-percent computation of CollectDomain (lines 661 to 663): the value
stays at its zero initialisation unless both Usable and Available are
non-zero. -/
def usedPercentCalc (ms : VirDomainMemoryStats) : ℚ :=
  if ms.Usable ≠ 0 ∧ ms.Available ≠ 0 then
    ((ms.Available : ℚ) - (ms.Usable : ℚ)) / ((ms.Available : ℚ) / 100)
  else 0

/-- Memory section of CollectDomain (lines 655 to 710): when the
MemoryStats call fails both the struct and usedPercent keep their
zero-valued defaults, and the nine memory measurements are emitted
unconditionally. -/
def memorySection (domainName : String)
    (memResult : Except GoError (List DomainMemoryStat)) : List Measurement :=
  let pair : VirDomainMemoryStats × ℚ :=
    match memResult with
    | .error _ => (VirDomainMemoryStats.zero, 0)
    | .ok l =>
        let MemoryStats := memoryStatCollect l
        (MemoryStats, usedPercentCalc MemoryStats)
  let MemoryStats := pair.1
  let usedPercent := pair.2
  [ ⟨.memMajorFault, .counter, (MemoryStats.MajorFault : ℚ), [domainName]⟩,
    ⟨.memMinorFault, .counter, (MemoryStats.MinorFault : ℚ), [domainName]⟩,
    ⟨.memUnused, .gauge, (MemoryStats.Unused : ℚ) * 1024, [domainName]⟩,
    ⟨.memAvailable, .gauge, (MemoryStats.Available : ℚ) * 1024, [domainName]⟩,
    ⟨.memActualBalloon, .gauge, (MemoryStats.ActualBalloon : ℚ) * 1024, [domainName]⟩,
    ⟨.memRss, .gauge, (MemoryStats.Rss : ℚ) * 1024, [domainName]⟩,
    ⟨.memUsable, .gauge, (MemoryStats.Usable : ℚ) * 1024, [domainName]⟩,
    ⟨.memDiskCaches, .gauge, (MemoryStats.DiskCaches : ℚ) * 1024, [domainName]⟩,
    ⟨.memUsedPercent, .gauge, usedPercent, [domainName]⟩ ]

/-- Domain info measurements of CollectDomain (lines 173 to 211): metadata
plus five gauges and counters, all unconditional. -/
def domainInfoMetrics (domainName domainUUID : String) (inst : NovaInstance)
    (info : DomainInfo) : List Measurement :=
  [ ⟨.domainInfoMeta, .gauge, 1,
      [domainName, domainUUID, inst.NovaName, inst.Flavor.FlavorName,
       inst.Owner.User.UserName, inst.Owner.User.UserUUID,
       inst.Owner.Project.ProjectName, inst.Owner.Project.ProjectUUID,
       inst.Root.RootType, inst.Root.RootUUID]⟩,
    ⟨.domainInfoMaxMem, .gauge, (info.MaxMem : ℚ) * 1024, [domainName]⟩,
    ⟨.domainInfoMemoryUsage, .gauge, (info.Memory : ℚ) * 1024, [domainName]⟩,
    ⟨.domainInfoNrVirtCpu, .gauge, (info.NrVirtCpu : ℚ), [domainName]⟩,
    ⟨.domainInfoCpuTime, .counter, (info.CpuTime : ℚ) / 1000 / 1000 / 1000, [domainName]⟩,
    ⟨.domainInfoVState, .gauge, (info.State : ℚ), [domainName]⟩ ]

/-- Per-vCPU state, time and host-cpu measurements from the `GetVcpus`
result (lines 220 to 241), labelled by the vCPU's reported Number. -/
def vcpuInfoMetrics (domainName : String) (vcpus : List VcpuInfo) : List Measurement :=
  vcpus.flatMap fun vcpu =>
    [ ⟨.vcpuState, .gauge, (vcpu.State : ℚ), [domainName, formatInt vcpu.Number]⟩,
      ⟨.vcpuTime, .counter, (vcpu.CpuTime : ℚ) / 1000 / 1000 / 1000,
        [domainName, formatInt vcpu.Number]⟩,
      ⟨.vcpuCpu, .gauge, (vcpu.Cpu : ℚ), [domainName, formatInt vcpu.Number]⟩ ]

/-- Per-vCPU wait and delay measurements from the bulk stat's per-vCPU
array (lines 247 to 264), labelled by the array position and each guarded
by its presence flag. -/
def vcpuWaitDelayMetrics (domainName : String) (statVcpu : List DomainStatsVcpu) :
    List Measurement :=
  statVcpu.enum.flatMap fun p =>
    mIf p.2.WaitSet
      ⟨.vcpuWait, .counter, (p.2.Wait : ℚ) / 1000 / 1000 / 1000,
        [domainName, formatInt p.1]⟩ ++
    mIf p.2.DelaySet
      ⟨.vcpuDelay, .counter, (p.2.Delay : ℚ) / 1000000000,
        [domainName, formatInt p.1]⟩

/-- GetVcpus block of CollectDomain (lines 213 to 265): on an error the
whole vCPU section is skipped, and only a `libvirt.Error` with code
ERR_OPERATION_INVALID is tolerated; any other error is returned. -/
def vcpuSection (domainName : String) (getVcpusResult : Except GoError (List VcpuInfo))
    (statVcpu : List DomainStatsVcpu) : List Measurement × Outcome :=
  match getVcpusResult with
  | .error e =>
      match e with
      | .libvirtErr code _ =>
          if code = .errOperationInvalid then ([], .ok) else ([], .fail e)
      | .otherErr _ => ([], .fail e)
  | .ok vcpus =>
      (vcpuInfoMetrics domainName vcpus ++ vcpuWaitDelayMetrics domainName statVcpu,
       .ok)

/-- Descriptor lookup of the block join (lines 279 to 290): the first disk
entry whose target device equals the bulk-reported name, if any. -/
def findDisk (descDisks : List Disk) (name : String) : Option Disk :=
  descDisks.find? fun dev => dev.Target.Device == name

/-- Block device metadata measurement (lines 292 to 305). -/
def blockMetaMeasurement (domainName : String) (disk : DomainStatsBlock)
    (diskSource : String) (dev : Disk) : Measurement :=
  ⟨.blockMeta, .gauge, 1,
    [domainName, disk.Name, diskSource, dev.Serial, dev.Target.Bus, dev.DiskType,
     dev.Driver.DriverType, dev.Driver.Cache, dev.Driver.Discard]⟩

/-- Presence-guarded block I/O counter and size measurements of one block
device (lines 307 to 395). -/
def blockStatMetrics (domainName : String) (disk : DomainStatsBlock) : List Measurement :=
  mIf disk.RdBytesSet ⟨.blockRdBytes, .counter, (disk.RdBytes : ℚ), [domainName, disk.Name]⟩ ++
  mIf disk.RdReqsSet ⟨.blockRdReq, .counter, (disk.RdReqs : ℚ), [domainName, disk.Name]⟩ ++
  mIf disk.RdTimesSet
    ⟨.blockRdTime, .counter, (disk.RdTimes : ℚ) / 1000000000, [domainName, disk.Name]⟩ ++
  mIf disk.WrBytesSet ⟨.blockWrBytes, .counter, (disk.WrBytes : ℚ), [domainName, disk.Name]⟩ ++
  mIf disk.WrReqsSet ⟨.blockWrReq, .counter, (disk.WrReqs : ℚ), [domainName, disk.Name]⟩ ++
  mIf disk.WrTimesSet
    ⟨.blockWrTime, .counter, (disk.WrTimes : ℚ) / 1000000000, [domainName, disk.Name]⟩ ++
  mIf disk.FlReqsSet ⟨.blockFlushReq, .counter, (disk.FlReqs : ℚ), [domainName, disk.Name]⟩ ++
  mIf disk.FlTimesSet
    ⟨.blockFlushTime, .counter, (disk.FlTimes : ℚ) / 1000000000, [domainName, disk.Name]⟩ ++
  mIf disk.AllocationSet
    ⟨.blockAllocation, .gauge, (disk.Allocation : ℚ), [domainName, disk.Name]⟩ ++
  mIf disk.CapacitySet
    ⟨.blockCapacity, .gauge, (disk.Capacity : ℚ), [domainName, disk.Name]⟩ ++
  mIf disk.PhysicalSet
    ⟨.blockPhysical, .gauge, (disk.Physical : ℚ), [domainName, disk.Name]⟩

/-- Presence-guarded throttle gauges of one block device (lines 412 to
563). -/
def blockIoTuneMetrics (domainName diskName : String) (t : BlockIoTuneParams) :
    List Measurement :=
  mIf t.TotalBytesSecSet
    ⟨.blockTotalBytesSec, .gauge, (t.TotalBytesSec : ℚ), [domainName, diskName]⟩ ++
  mIf t.ReadBytesSecSet
    ⟨.blockReadBytesSec, .gauge, (t.ReadBytesSec : ℚ), [domainName, diskName]⟩ ++
  mIf t.WriteBytesSecSet
    ⟨.blockWriteBytesSec, .gauge, (t.WriteBytesSec : ℚ), [domainName, diskName]⟩ ++
  mIf t.TotalIopsSecSet
    ⟨.blockTotalIopsSec, .gauge, (t.TotalIopsSec : ℚ), [domainName, diskName]⟩ ++
  mIf t.ReadIopsSecSet
    ⟨.blockReadIopsSec, .gauge, (t.ReadIopsSec : ℚ), [domainName, diskName]⟩ ++
  mIf t.WriteIopsSecSet
    ⟨.blockWriteIopsSec, .gauge, (t.WriteIopsSec : ℚ), [domainName, diskName]⟩ ++
  mIf t.TotalBytesSecMaxSet
    ⟨.blockTotalBytesSecMax, .gauge, (t.TotalBytesSecMax : ℚ), [domainName, diskName]⟩ ++
  mIf t.ReadBytesSecMaxSet
    ⟨.blockReadBytesSecMax, .gauge, (t.ReadBytesSecMax : ℚ), [domainName, diskName]⟩ ++
  mIf t.WriteBytesSecMaxSet
    ⟨.blockWriteBytesSecMax, .gauge, (t.WriteBytesSecMax : ℚ), [domainName, diskName]⟩ ++
  mIf t.TotalIopsSecMaxSet
    ⟨.blockTotalIopsSecMax, .gauge, (t.TotalIopsSecMax : ℚ), [domainName, diskName]⟩ ++
  mIf t.ReadIopsSecMaxSet
    ⟨.blockReadIopsSecMax, .gauge, (t.ReadIopsSecMax : ℚ), [domainName, diskName]⟩ ++
  mIf t.WriteIopsSecMaxSet
    ⟨.blockWriteIopsSecMax, .gauge, (t.WriteIopsSecMax : ℚ), [domainName, diskName]⟩ ++
  mIf t.TotalBytesSecMaxLengthSet
    ⟨.blockTotalBytesSecMaxLength, .gauge, (t.TotalBytesSecMaxLength : ℚ),
      [domainName, diskName]⟩ ++
  mIf t.ReadBytesSecMaxLengthSet
    ⟨.blockReadBytesSecMaxLength, .gauge, (t.ReadBytesSecMaxLength : ℚ),
      [domainName, diskName]⟩ ++
  mIf t.WriteBytesSecMaxLengthSet
    ⟨.blockWriteBytesSecMaxLength, .gauge, (t.WriteBytesSecMaxLength : ℚ),
      [domainName, diskName]⟩ ++
  mIf t.TotalIopsSecMaxLengthSet
    ⟨.blockTotalIopsSecMaxLength, .gauge, (t.TotalIopsSecMaxLength : ℚ),
      [domainName, diskName]⟩ ++
  mIf t.ReadIopsSecMaxLengthSet
    ⟨.blockReadIopsSecMaxLength, .gauge, (t.ReadIopsSecMaxLength : ℚ),
      [domainName, diskName]⟩ ++
  mIf t.WriteIopsSecMaxLengthSet
    ⟨.blockWriteIopsSecMaxLength, .gauge, (t.WriteIopsSecMaxLength : ℚ),
      [domainName, diskName]⟩ ++
  mIf t.SizeIopsSecSet
    ⟨.blockSizeIopsSec, .gauge, (t.SizeIopsSec : ℚ), [domainName, diskName]⟩

/-- Switch of the GetBlockIoTune error handler (lines 401 to 409), reached
with the code of `lverr`. Note the handler only reaches this switch after
a FAILED type assertion, with `lverr` the zero value, so the code passed
here is always `zeroLvCode`. -/
def tuneFailSwitch (code : LvErrCode) (msg : String) (e : GoError) (st : LogState) :
    List Measurement × LogState × Outcome :=
  match code with
  | .errOperationInvalid =>
      ([], { st with logLines :=
              st.logLines ++ ["Invalid operation GetBlockIoTune: " ++ msg] }, .ok)
  | .errOperationUnsupported =>
      ([], WriteErrorOnce ("Unsupported operation GetBlockIoTune: " ++ msg)
             "blkiotune_unsupported" st, .ok)
  | _ => ([], st, .fail e)

/-- GetBlockIoTune fetch and handling for one block device (lines 397 to
564). When the call fails the Go code runs the switch only under `if !ok`,
i.e. only when the type assertion `err.(libvirt.Error)` FAILED; a genuine
`libvirt.Error` therefore skips the whole handler silently, and a
non-libvirt error reaches the switch with the zero code and falls to the
default `return err`. -/
def tuneFetchSection (domainName diskName : String)
    (r : Except GoError BlockIoTuneParams) (st : LogState) :
    List Measurement × LogState × Outcome :=
  match r with
  | .error e =>
      match e with
      | .libvirtErr _ _ => ([], st, .ok)
      | .otherErr msg => tuneFailSwitch zeroLvCode msg e st
  | .ok t => (blockIoTuneMetrics domainName diskName t, st, .ok)

/-- Body of the block device loop of CollectDomain (lines 268 to 565):
skip hda and hdc, join against the descriptor (a miss leaves the `Device`
pointer nil and the metadata emission dereferences it), then emit
metadata, presence-guarded counters, and throttle gauges. -/
def blockDeviceSection (domainName : String) (descDisks : List Disk)
    (tuneResult : String → Except GoError BlockIoTuneParams) (st : LogState)
    (disk : DomainStatsBlock) : List Measurement × LogState × Outcome :=
  if disk.Name == "hdc" || disk.Name == "hda" then ([], st, .ok)
  else
    match findDisk descDisks disk.Name with
    | none => ([], st, .nilDeref)
    | some dev =>
        let diskSource := if disk.PathSet then disk.Path else dev.Source.Name
        let metaM := [blockMetaMeasurement domainName disk diskSource dev]
        let statM := blockStatMetrics domainName disk
        match tuneFetchSection domainName disk.Name (tuneResult disk.Name) st with
        | (tuneM, st', out) => (metaM ++ statM ++ tuneM, st', out)

/-- Block device loop of CollectDomain: measurements already sent to the
channel stay emitted even when a later device returns an error or
panics. -/
def blockLoop (domainName : String) (descDisks : List Disk)
    (tuneResult : String → Except GoError BlockIoTuneParams) (st : LogState) :
    List DomainStatsBlock → List Measurement × LogState × Outcome
  | [] => ([], st, .ok)
  | disk :: rest =>
      match blockDeviceSection domainName descDisks tuneResult st disk with
      | (ms, st', .ok) =>
          match blockLoop domainName descDisks tuneResult st' rest with
          | (ms2, st2, out2) => (ms ++ ms2, st2, out2)
      | other => other

/-- Descriptor lookup of the network join (lines 572 to 578): bridge and
virtual interface id of the first matching interface, empty strings when
no entry matches. -/
def ifaceJoin (descIfaces : List NetInterface) (name : String) : String × String :=
  match descIfaces.find? fun net => net.Target.Device == name with
  | some net => (net.Source.Bridge, net.Virtualport.Parameters.InterfaceID)
  | none => ("", "")

/-- Body of the network interface loop of CollectDomain (lines 568 to
653): the metadata measurement only when at least one enrichment field is
non-empty, then the eight presence-guarded counters. -/
def netInterfaceMetrics (domainName : String) (descIfaces : List NetInterface)
    (iface : DomainStatsNet) : List Measurement :=
  let sourceBridge := (ifaceJoin descIfaces iface.Name).1
  let virtualInterface := (ifaceJoin descIfaces iface.Name).2
  mIf (sourceBridge != "" || virtualInterface != "")
    ⟨.interfaceMeta, .gauge, 1,
      [domainName, sourceBridge, iface.Name, virtualInterface]⟩ ++
  mIf iface.RxBytesSet
    ⟨.ifaceRxBytes, .counter, (iface.RxBytes : ℚ), [domainName, iface.Name]⟩ ++
  mIf iface.RxPktsSet
    ⟨.ifaceRxPackets, .counter, (iface.RxPkts : ℚ), [domainName, iface.Name]⟩ ++
  mIf iface.RxErrsSet
    ⟨.ifaceRxErrs, .counter, (iface.RxErrs : ℚ), [domainName, iface.Name]⟩ ++
  mIf iface.RxDropSet
    ⟨.ifaceRxDrop, .counter, (iface.RxDrop : ℚ), [domainName, iface.Name]⟩ ++
  mIf iface.TxBytesSet
    ⟨.ifaceTxBytes, .counter, (iface.TxBytes : ℚ), [domainName, iface.Name]⟩ ++
  mIf iface.TxPktsSet
    ⟨.ifaceTxPackets, .counter, (iface.TxPkts : ℚ), [domainName, iface.Name]⟩ ++
  mIf iface.TxErrsSet
    ⟨.ifaceTxErrs, .counter, (iface.TxErrs : ℚ), [domainName, iface.Name]⟩ ++
  mIf iface.TxDropSet
    ⟨.ifaceTxDrop, .counter, (iface.TxDrop : ℚ), [domainName, iface.Name]⟩

/-- Inputs of one CollectDomain invocation: every fallible call the code
performs on `stat.Domain` (GetXMLDesc and xml.Unmarshal are combined into
one descriptor result, both failure paths return the error identically)
together with the bulk stat arrays. -/
structure DomainStatInputs where
  getName : Except GoError String
  getUUIDString : Except GoError String
  xmlDesc : Except GoError DomainXml
  getInfo : Except GoError DomainInfo
  getVcpus : Except GoError (List VcpuInfo)
  statVcpu : List DomainStatsVcpu
  statBlock : List DomainStatsBlock
  getBlockIoTune : String → Except GoError BlockIoTuneParams
  statNet : List DomainStatsNet
  memoryStats : Except GoError (List DomainMemoryStat)

/-- Model of `CollectDomain` (lines 146 to 713): the ordered list of
measurements sent to the channel, the final logging state, and the
outcome (normal return nil, `return err`, or a nil-pointer panic).
Measurements sent before an error return stay emitted. -/
def CollectDomain (d : DomainStatInputs) (st : LogState) :
    List Measurement × LogState × Outcome :=
  match d.getName with
  | .error e => ([], st, .fail e)
  | .ok domainName =>
  match d.getUUIDString with
  | .error e => ([], st, .fail e)
  | .ok domainUUID =>
  match d.xmlDesc with
  | .error e => ([], st, .fail e)
  | .ok desc =>
  match d.getInfo with
  | .error e => ([], st, .fail e)
  | .ok info =>
  let infoMs := domainInfoMetrics domainName domainUUID desc.Metadata.NovaInstance info
  match vcpuSection domainName d.getVcpus d.statVcpu with
  | (vcpuMs, .ok) =>
      (match blockLoop domainName desc.Devices.Disks d.getBlockIoTune st d.statBlock with
       | (blockMs, st', .ok) =>
           (infoMs ++ vcpuMs ++ blockMs ++
              d.statNet.flatMap (netInterfaceMetrics domainName desc.Devices.Interfaces) ++
              memorySection domainName d.memoryStats,
            st', .ok)
       | (blockMs, st', out) => (infoMs ++ vcpuMs ++ blockMs, st', out))
  | (vcpuMs, out) => (infoMs ++ vcpuMs, st, out)

/-- Inputs of one CollectStoragePool invocation: the three fallible calls
the code performs on the pool. -/
structure StoragePoolInputs where
  refresh : Except GoError Unit
  getName : Except GoError String
  getInfo : Except GoError PoolInfo

/-- Model of `CollectStoragePool` (lines 113 to 144): refresh, read the
name, read the info, returning the first error with nothing emitted, and
emitting the three gauges only when all three calls succeed. -/
def CollectStoragePool (pool : StoragePoolInputs) : List Measurement × Option GoError :=
  match pool.refresh with
  | .error e => ([], some e)
  | .ok _ =>
  match pool.getName with
  | .error e => ([], some e)
  | .ok pool_name =>
  match pool.getInfo with
  | .error e => ([], some e)
  | .ok pool_info =>
  ([ ⟨.poolCapacity, .gauge, (pool_info.Capacity : ℚ), [pool_name]⟩,
     ⟨.poolAllocation, .gauge, (pool_info.Allocation : ℚ), [pool_name]⟩,
     ⟨.poolAvailable, .gauge, (pool_info.Available : ℚ), [pool_name]⟩ ], none)

/-- Helper for the claims: whether some emitted measurement uses the given
descriptor. -/
def hasDesc (dsc : MetricDesc) (ms : List Measurement) : Bool :=
  ms.any fun m => decide (m.desc = dsc)

/-- Spec-side helper for the memory decode claim: the value of the last
pair carrying the given tag, zero when no pair carries it, starting from
an arbitrary initial value. -/
def lastAux (t : Int) (a : Nat) (l : List DomainMemoryStat) : Nat :=
  l.foldl (fun x s => if s.Tag = t then s.Val else x) a

/-- Spec-side helper: the value assigned by the decoder to the quantity
selected by tag `t`, i.e. the last reported value for that tag, zero when
the tag never occurs. -/
def lastTagVal (t : Int) (l : List DomainMemoryStat) : Nat :=
  lastAux t 0 l

/-
Concrete fixtures used by the witness theorems.
-/

/-- Empty logging state: process start. -/
def emptyLog : LogState := ⟨[], []⟩

/-- Throttle parameter struct with every presence flag false. -/
def tuneAllUnset : BlockIoTuneParams :=
  ⟨false, 0, false, 0, false, 0, false, 0, false, 0, false, 0, false, 0,
   false, 0, false, 0, false, 0, false, 0, false, 0, false, 0, false, 0,
   false, 0, false, 0, false, 0, false, 0, false, 0⟩

/-- Block stat for device vda with every presence flag false. -/
def diskAllUnset : DomainStatsBlock :=
  ⟨"vda", false, "", false, 0, false, 0, false, 0, false, 0, false, 0,
   false, 0, false, 0, false, 0, false, 0, false, 0, false, 0⟩

/-- Block stat for a device named vdb, not described by any descriptor
entry in the fixtures. -/
def diskVdb : DomainStatsBlock :=
  ⟨"vdb", false, "", true, 7, false, 0, false, 0, false, 0, false, 0,
   false, 0, false, 0, false, 0, false, 0, false, 0, false, 0⟩

/-- Block stat for the excluded legacy device hda, with populated fields. -/
def diskHda : DomainStatsBlock :=
  ⟨"hda", true, "/dev/hda", true, 1, true, 2, true, 3, true, 4, true, 5,
   true, 6, true, 7, true, 8, true, 9, true, 10, true, 11⟩

/-- Interface stat for vnet0 with every presence flag false. -/
def ifaceAllUnset : DomainStatsNet :=
  ⟨"vnet0", false, 0, false, 0, false, 0, false, 0, false, 0, false, 0,
   false, 0, false, 0⟩

/-- Throttle fetch stub that always fails with a non-libvirt error. -/
def tuneAlwaysOther : String → Except GoError BlockIoTuneParams :=
  fun _ => .error (.otherErr "boom")

/-- GetVcpus result with the single vCPU number 3. -/
def vcpusOnly3 : List VcpuInfo := [⟨3, 1, 5000000000, 0⟩]

/-- Domain inputs whose GetVcpus call fails with ERR_OPERATION_INVALID and
whose bulk per-vCPU array has a wait flag set. -/
def domInputsVcpuInvalid : DomainStatInputs where
  getName := .ok "dom0"
  getUUIDString := .ok "uuid-0"
  xmlDesc := .ok ⟨⟨[], []⟩, ⟨⟨"", ⟨""⟩, ⟨⟨"", ""⟩, ⟨"", ""⟩⟩, ⟨"", ""⟩⟩⟩⟩
  getInfo := .ok ⟨1024, 512, 2, 5000000000, 1⟩
  getVcpus := .error (.libvirtErr .errOperationInvalid "op invalid")
  statVcpu := [⟨true, 1000000000, true, 2000000000⟩]
  statBlock := []
  getBlockIoTune := tuneAlwaysOther
  statNet := []
  memoryStats := .error (.otherErr "no memstats")

/-- Pool inputs whose refresh fails. -/
def poolRefreshFails : StoragePoolInputs :=
  ⟨.error (.otherErr "refresh failed"), .ok "default", .ok ⟨100, 40, 60⟩⟩

/-- Pool inputs where all three calls succeed. -/
def poolAllOk : StoragePoolInputs :=
  ⟨.ok (), .ok "default", .ok ⟨100, 40, 60⟩⟩

/-
Helper lemmas shared by the claim proofs.
-/

theorem hasDesc_append (dsc : MetricDesc) (l1 l2 : List Measurement) :
    hasDesc dsc (l1 ++ l2) = (hasDesc dsc l1 || hasDesc dsc l2) := by
  simp [hasDesc]

theorem hasDesc_mIf (dsc : MetricDesc) (b : Bool) (m : Measurement) :
    hasDesc dsc (mIf b m) = (b && decide (m.desc = dsc)) := by
  cases b <;> simp [hasDesc, mIf]

theorem hasDesc_nil (dsc : MetricDesc) : hasDesc dsc [] = false := rfl


/-- C1: for every optional statistic field guarded by a presence flag — the
block read, write and flush counters, allocation, capacity and physical
size, the network receive and transmit counters, and all nineteen
presence-guarded throttle limit fields — a false presence flag produces no
measurement with that field's metric descriptor in the emitting section's
output for that device or interface; an absent field is never defaulted to
zero and emitted. -/
theorem presence_flag_false_emits_nothing (dn nm : String)
    (descIfaces : List NetInterface) (disk : DomainStatsBlock)
    (t : BlockIoTuneParams) (iface : DomainStatsNet) :
    (disk.RdBytesSet = false → hasDesc .blockRdBytes (blockStatMetrics dn disk) = false) ∧
    (disk.RdReqsSet = false → hasDesc .blockRdReq (blockStatMetrics dn disk) = false) ∧
    (disk.RdTimesSet = false → hasDesc .blockRdTime (blockStatMetrics dn disk) = false) ∧
    (disk.WrBytesSet = false → hasDesc .blockWrBytes (blockStatMetrics dn disk) = false) ∧
    (disk.WrReqsSet = false → hasDesc .blockWrReq (blockStatMetrics dn disk) = false) ∧
    (disk.WrTimesSet = false → hasDesc .blockWrTime (blockStatMetrics dn disk) = false) ∧
    (disk.FlReqsSet = false → hasDesc .blockFlushReq (blockStatMetrics dn disk) = false) ∧
    (disk.FlTimesSet = false → hasDesc .blockFlushTime (blockStatMetrics dn disk) = false) ∧
    (disk.AllocationSet = false → hasDesc .blockAllocation (blockStatMetrics dn disk) = false) ∧
    (disk.CapacitySet = false → hasDesc .blockCapacity (blockStatMetrics dn disk) = false) ∧
    (disk.PhysicalSet = false → hasDesc .blockPhysical (blockStatMetrics dn disk) = false) ∧
    (t.TotalBytesSecSet = false → hasDesc .blockTotalBytesSec (blockIoTuneMetrics dn nm t) = false) ∧
    (t.ReadBytesSecSet = false → hasDesc .blockReadBytesSec (blockIoTuneMetrics dn nm t) = false) ∧
    (t.WriteBytesSecSet = false → hasDesc .blockWriteBytesSec (blockIoTuneMetrics dn nm t) = false) ∧
    (t.TotalIopsSecSet = false → hasDesc .blockTotalIopsSec (blockIoTuneMetrics dn nm t) = false) ∧
    (t.ReadIopsSecSet = false → hasDesc .blockReadIopsSec (blockIoTuneMetrics dn nm t) = false) ∧
    (t.WriteIopsSecSet = false → hasDesc .blockWriteIopsSec (blockIoTuneMetrics dn nm t) = false) ∧
    (t.TotalBytesSecMaxSet = false → hasDesc .blockTotalBytesSecMax (blockIoTuneMetrics dn nm t) = false) ∧
    (t.ReadBytesSecMaxSet = false → hasDesc .blockReadBytesSecMax (blockIoTuneMetrics dn nm t) = false) ∧
    (t.WriteBytesSecMaxSet = false → hasDesc .blockWriteBytesSecMax (blockIoTuneMetrics dn nm t) = false) ∧
    (t.TotalIopsSecMaxSet = false → hasDesc .blockTotalIopsSecMax (blockIoTuneMetrics dn nm t) = false) ∧
    (t.ReadIopsSecMaxSet = false → hasDesc .blockReadIopsSecMax (blockIoTuneMetrics dn nm t) = false) ∧
    (t.WriteIopsSecMaxSet = false → hasDesc .blockWriteIopsSecMax (blockIoTuneMetrics dn nm t) = false) ∧
    (t.TotalBytesSecMaxLengthSet = false → hasDesc .blockTotalBytesSecMaxLength (blockIoTuneMetrics dn nm t) = false) ∧
    (t.ReadBytesSecMaxLengthSet = false → hasDesc .blockReadBytesSecMaxLength (blockIoTuneMetrics dn nm t) = false) ∧
    (t.WriteBytesSecMaxLengthSet = false → hasDesc .blockWriteBytesSecMaxLength (blockIoTuneMetrics dn nm t) = false) ∧
    (t.TotalIopsSecMaxLengthSet = false → hasDesc .blockTotalIopsSecMaxLength (blockIoTuneMetrics dn nm t) = false) ∧
    (t.ReadIopsSecMaxLengthSet = false → hasDesc .blockReadIopsSecMaxLength (blockIoTuneMetrics dn nm t) = false) ∧
    (t.WriteIopsSecMaxLengthSet = false → hasDesc .blockWriteIopsSecMaxLength (blockIoTuneMetrics dn nm t) = false) ∧
    (t.SizeIopsSecSet = false → hasDesc .blockSizeIopsSec (blockIoTuneMetrics dn nm t) = false) ∧
    (iface.RxBytesSet = false → hasDesc .ifaceRxBytes (netInterfaceMetrics dn descIfaces iface) = false) ∧
    (iface.RxPktsSet = false → hasDesc .ifaceRxPackets (netInterfaceMetrics dn descIfaces iface) = false) ∧
    (iface.RxErrsSet = false → hasDesc .ifaceRxErrs (netInterfaceMetrics dn descIfaces iface) = false) ∧
    (iface.RxDropSet = false → hasDesc .ifaceRxDrop (netInterfaceMetrics dn descIfaces iface) = false) ∧
    (iface.TxBytesSet = false → hasDesc .ifaceTxBytes (netInterfaceMetrics dn descIfaces iface) = false) ∧
    (iface.TxPktsSet = false → hasDesc .ifaceTxPackets (netInterfaceMetrics dn descIfaces iface) = false) ∧
    (iface.TxErrsSet = false → hasDesc .ifaceTxErrs (netInterfaceMetrics dn descIfaces iface) = false) ∧
    (iface.TxDropSet = false → hasDesc .ifaceTxDrop (netInterfaceMetrics dn descIfaces iface) = false) := by
  repeat' apply And.intro
  all_goals intro h
  all_goals
    simp [blockStatMetrics, blockIoTuneMetrics, netInterfaceMetrics,
      hasDesc_append, hasDesc_mIf, h]

/-- C1 witness: the rd-bytes conjunct applied to the all-flags-false
fixtures. -/
theorem presence_flag_false_emits_nothing_witness :
    hasDesc .blockRdBytes (blockStatMetrics "dom0" diskAllUnset) = false :=
  (presence_flag_false_emits_nothing "dom0" "vda" [] diskAllUnset tuneAllUnset
    ifaceAllUnset).1 rfl

/-- C2 evaluation: a GetBlockIoTune failure that is a `libvirt.Error` with
code ERR_OPERATION_UNSUPPORTED is handled by the `if !ok` branch of the
collector, whose condition is false precisely because the type assertion
succeeded; the switch and its `WriteErrorOnce` call are skipped, so even
the FIRST such failure writes no log line and records no tag in the
deduplication set, for every prior logging state. -/
theorem unsupported_tune_error_never_logged (dn nm msg : String) (st : LogState) :
    tuneFetchSection dn nm (.error (.libvirtErr .errOperationUnsupported msg)) st =
      ([], st, .ok) := rfl

/-- C3 evaluation: a bulk-reported block device named vdb (neither hda nor
hdc) with no matching disk entry in the domain descriptor leaves the
`Device` pointer nil, and the unconditional metadata emission dereferences
it: the device's iteration emits nothing and the domain collection dies
with a nil-pointer panic instead of skipping the device. -/
theorem unmatched_descriptor_entry_panics :
    blockDeviceSection "dom0" [] tuneAlwaysOther emptyLog diskVdb =
      ([], emptyLog, .nilDeref) := by decide

/-- C4: the packed-version decoding satisfies the stated componentwise
formula, and re-encoding the decoded components is exact on
[0, 999999999]. -/
theorem version_decode_roundtrip (v : Nat) :
    decodeVersion v = (v / 1000000 % 1000, v / 1000 % 1000, v % 1000) ∧
    (v ≤ 999999999 → encodeVersion (decodeVersion v) = v) := by
  refine ⟨rfl, fun h => ?_⟩
  simp only [decodeVersion, encodeVersion]
  omega

/-- C4 witness: the round trip evaluated at the packed version 8002011,
i.e. 8.2.11. -/
theorem version_decode_roundtrip_witness :
    8002011 ≤ 999999999 ∧ encodeVersion (decodeVersion 8002011) = 8002011 :=
  ⟨by decide, (version_decode_roundtrip 8002011).2 (by decide)⟩

/-- C5: the used-percent gauge equals (available − usable)/(available/100)
when both are non-zero, is zero when either is zero, is emitted with the
computed value on a successful memory-statistics call, is emitted as zero
when the call fails, and available=100, usable=25 yields exactly 75. -/
theorem used_percent_formula (ms : VirDomainMemoryStats) (e : GoError)
    (dn : String) (l : List DomainMemoryStat) :
    (ms.Available ≠ 0 → ms.Usable ≠ 0 →
      usedPercentCalc ms =
        ((ms.Available : ℚ) - (ms.Usable : ℚ)) / ((ms.Available : ℚ) / 100)) ∧
    (ms.Available = 0 ∨ ms.Usable = 0 → usedPercentCalc ms = 0) ∧
    (⟨.memUsedPercent, .gauge, usedPercentCalc (memoryStatCollect l), [dn]⟩ : Measurement)
      ∈ memorySection dn (.ok l) ∧
    (⟨.memUsedPercent, .gauge, 0, [dn]⟩ : Measurement) ∈ memorySection dn (.error e) ∧
    usedPercentCalc ⟨0, 0, 0, 100, 0, 0, 25, 0⟩ = 75 := by
  refine ⟨fun h1 h2 => ?_, fun h => ?_, ?_, ?_, ?_⟩
  · simp [usedPercentCalc, h1, h2]
  · rcases h with h | h <;> simp [usedPercentCalc, h]
  · simp [memorySection]
  · simp [memorySection]
  · norm_num [usedPercentCalc]

/-- C5 witness: the zero branch applied at usable=5, available=0. -/
theorem used_percent_formula_witness :
    usedPercentCalc ⟨0, 0, 0, 0, 0, 0, 5, 0⟩ = 0 :=
  (used_percent_formula ⟨0, 0, 0, 0, 0, 0, 5, 0⟩ (.otherErr "x") "d" []).2.1 (Or.inl rfl)

/-- C6: a bulk-reported block device named exactly hda or hdc is skipped
before any emission: its loop iteration emits no measurement of any kind,
leaves the logging state untouched and continues normally, whatever its
populated statistic fields and whatever the descriptor and throttle
results. -/
theorem hda_hdc_never_reported (dn : String) (descDisks : List Disk)
    (tuneResult : String → Except GoError BlockIoTuneParams) (st : LogState)
    (disk : DomainStatsBlock) (h : disk.Name = "hda" ∨ disk.Name = "hdc") :
    blockDeviceSection dn descDisks tuneResult st disk = ([], st, .ok) := by
  rcases h with h | h <;> simp [blockDeviceSection, h]

/-- C6 witness: the hda fixture with every statistic field populated still
emits nothing. -/
theorem hda_hdc_never_reported_witness :
    blockDeviceSection "dom0" [] tuneAlwaysOther emptyLog diskHda =
      ([], emptyLog, .ok) :=
  hda_hdc_never_reported "dom0" [] tuneAlwaysOther emptyLog diskHda (Or.inl rfl)

/-- C9: when GetVcpus fails with a `libvirt.Error` carrying
ERR_OPERATION_INVALID, CollectDomain behaves exactly as if the domain had
no vCPUs at all — the whole vCPU section, wait and delay measurements
included (whatever presence flags the bulk per-vCPU array carries), is
skipped, and processing of the rest of the domain continues without an
error. -/
theorem vcpu_invalid_skips_all_vcpu_metrics (d : DomainStatInputs) (st : LogState)
    (msg : String) (h : d.getVcpus = .error (.libvirtErr .errOperationInvalid msg)) :
    CollectDomain d st = CollectDomain { d with getVcpus := .ok [], statVcpu := [] } st := by
  cases hn : d.getName <;> cases hu : d.getUUIDString <;> cases hx : d.xmlDesc <;>
    cases hi : d.getInfo <;>
    simp [CollectDomain, h, hn, hu, hx, hi, vcpuSection, vcpuInfoMetrics,
      vcpuWaitDelayMetrics]

/-- C9 witness: the fixture whose GetVcpus fails with the
operation-invalid code and whose bulk per-vCPU array has wait and delay
flags set. -/
theorem vcpu_invalid_skips_all_vcpu_metrics_witness :
    CollectDomain domInputsVcpuInvalid emptyLog =
      CollectDomain { domInputsVcpuInvalid with getVcpus := .ok [], statVcpu := [] }
        emptyLog :=
  vcpu_invalid_skips_all_vcpu_metrics domInputsVcpuInvalid emptyLog "op invalid" rfl

/-- C10: CollectStoragePool is atomic on error: a failing refresh, name
read or info read returns that error with zero measurements, and when all
three calls succeed exactly the three pool gauges are emitted. -/
theorem pool_collection_atomic (pool : StoragePoolInputs) :
    (∀ e, pool.refresh = .error e → CollectStoragePool pool = ([], some e)) ∧
    (∀ e, pool.refresh = .ok () → pool.getName = .error e →
      CollectStoragePool pool = ([], some e)) ∧
    (∀ e n, pool.refresh = .ok () → pool.getName = .ok n →
      pool.getInfo = .error e → CollectStoragePool pool = ([], some e)) ∧
    (∀ n i, pool.refresh = .ok () → pool.getName = .ok n → pool.getInfo = .ok i →
      CollectStoragePool pool =
        ([⟨.poolCapacity, .gauge, (i.Capacity : ℚ), [n]⟩,
          ⟨.poolAllocation, .gauge, (i.Allocation : ℚ), [n]⟩,
          ⟨.poolAvailable, .gauge, (i.Available : ℚ), [n]⟩], none)) := by
  refine ⟨?_, ?_, ?_, ?_⟩ <;> intros <;> simp_all [CollectStoragePool]

/-- C10 witness: the refresh-failure fixture returns the refresh error and
emits nothing. -/
theorem pool_collection_atomic_witness :
    CollectStoragePool poolRefreshFails = ([], some (.otherErr "refresh failed")) :=
  (pool_collection_atomic poolRefreshFails).1 (.otherErr "refresh failed") rfl

theorem memoryStatStep_fields (acc : VirDomainMemoryStats) (s : DomainMemoryStat) :
    memoryStatStep acc s =
      ⟨if s.Tag = 2 then s.Val else acc.MajorFault,
       if s.Tag = 3 then s.Val else acc.MinorFault,
       if s.Tag = 4 then s.Val else acc.Unused,
       if s.Tag = 5 then s.Val else acc.Available,
       if s.Tag = 6 then s.Val else acc.ActualBalloon,
       if s.Tag = 7 then s.Val else acc.Rss,
       if s.Tag = 8 then s.Val else acc.Usable,
       if s.Tag = 10 then s.Val else acc.DiskCaches⟩ := by
  unfold memoryStatStep
  by_cases h2 : s.Tag = 2
  · simp [h2]
  by_cases h3 : s.Tag = 3
  · simp [h2, h3]
  by_cases h4 : s.Tag = 4
  · simp [h2, h3, h4]
  by_cases h5 : s.Tag = 5
  · simp [h2, h3, h4, h5]
  by_cases h6 : s.Tag = 6
  · simp [h2, h3, h4, h5, h6]
  by_cases h7 : s.Tag = 7
  · simp [h2, h3, h4, h5, h6, h7]
  by_cases h8 : s.Tag = 8
  · simp [h2, h3, h4, h5, h6, h7, h8]
  by_cases h10 : s.Tag = 10
  · simp [h2, h3, h4, h5, h6, h7, h8, h10]
  · simp [h2, h3, h4, h5, h6, h7, h8, h10]

theorem memoryStatCollect_foldl (l : List DomainMemoryStat) :
    ∀ acc, l.foldl memoryStatStep acc =
      ⟨lastAux 2 acc.MajorFault l, lastAux 3 acc.MinorFault l,
       lastAux 4 acc.Unused l, lastAux 5 acc.Available l,
       lastAux 6 acc.ActualBalloon l, lastAux 7 acc.Rss l,
       lastAux 8 acc.Usable l, lastAux 10 acc.DiskCaches l⟩ := by
  induction l with
  | nil => intro acc; simp [lastAux]
  | cons s rest ih =>
      intro acc
      rw [List.foldl_cons, ih (memoryStatStep acc s), memoryStatStep_fields]
      simp [lastAux]

theorem lastAux_no_match (t : Int) (a : Nat) (l : List DomainMemoryStat)
    (h : ∀ s ∈ l, s.Tag ≠ t) : lastAux t a l = a := by
  induction l generalizing a with
  | nil => rfl
  | cons s rest ih =>
      have hs : s.Tag ≠ t := h s (List.mem_cons_self ..)
      simp only [lastAux, List.foldl_cons, if_neg hs] at *
      exact ih _ (fun u hu => h u (List.mem_cons_of_mem _ hu))

/-- C8: the memory-statistics decoder assigns to each of the eight named
quantities exactly the (last) value reported with its selecting tag
(2 major-fault, 3 minor-fault, 4 unused, 5 available, 6 actual-balloon,
7 resident-set-size, 8 usable, 10 disk-caches), a pair with any other tag
leaves the decoded struct unchanged, and a quantity whose tag never occurs
stays at zero. -/
theorem memory_tag_decoding (l : List DomainMemoryStat) :
    ((memoryStatCollect l).MajorFault = lastTagVal 2 l ∧
     (memoryStatCollect l).MinorFault = lastTagVal 3 l ∧
     (memoryStatCollect l).Unused = lastTagVal 4 l ∧
     (memoryStatCollect l).Available = lastTagVal 5 l ∧
     (memoryStatCollect l).ActualBalloon = lastTagVal 6 l ∧
     (memoryStatCollect l).Rss = lastTagVal 7 l ∧
     (memoryStatCollect l).Usable = lastTagVal 8 l ∧
     (memoryStatCollect l).DiskCaches = lastTagVal 10 l) ∧
    (∀ t v, t ≠ 2 → t ≠ 3 → t ≠ 4 → t ≠ 5 → t ≠ 6 → t ≠ 7 → t ≠ 8 → t ≠ 10 →
      memoryStatCollect (l ++ [⟨t, v⟩]) = memoryStatCollect l) ∧
    (∀ t, (∀ s ∈ l, s.Tag ≠ t) → lastTagVal t l = 0) := by
  refine ⟨?_, ?_, ?_⟩
  · simp [memoryStatCollect, memoryStatCollect_foldl, lastTagVal,
      VirDomainMemoryStats.zero]
  · intro t v h2 h3 h4 h5 h6 h7 h8 h10
    simp [memoryStatCollect, List.foldl_append, memoryStatStep,
      h2, h3, h4, h5, h6, h7, h8, h10]
  · intro t h
    exact lastAux_no_match t 0 l h

/-- C8 witness: a pair with the unrecognized tag 11 appended to the empty
sequence changes nothing. -/
theorem memory_tag_decoding_witness :
    memoryStatCollect ([] ++ [⟨11, 7⟩]) = memoryStatCollect [] :=
  (memory_tag_decoding []).2.1 11 7 (by decide) (by decide) (by decide) (by decide)
    (by decide) (by decide) (by decide) (by decide)

theorem digitChar_inj_lt : ∀ a < 10, ∀ b < 10,
    Nat.digitChar a = Nat.digitChar b → a = b := by decide

theorem map_digitChar_inj : ∀ l1 l2 : List Nat, (∀ d ∈ l1, d < 10) →
    (∀ d ∈ l2, d < 10) → l1.map Nat.digitChar = l2.map Nat.digitChar → l1 = l2 := by
  intro l1
  induction l1 with
  | nil =>
      intro l2 _ _ h
      cases l2 with
      | nil => rfl
      | cons b t2 => simp at h
  | cons a t ih =>
      intro l2 h1 h2 h
      cases l2 with
      | nil => simp at h
      | cons b t2 =>
          simp only [List.map_cons, List.cons.injEq] at h
          have ha : a < 10 := h1 a (List.mem_cons_self ..)
          have hb : b < 10 := h2 b (List.mem_cons_self ..)
          have hab : a = b := digitChar_inj_lt a ha b hb h.1
          have ht : t = t2 :=
            ih t2 (fun d hd => h1 d (List.mem_cons_of_mem _ hd))
              (fun d hd => h2 d (List.mem_cons_of_mem _ hd)) h.2
          rw [hab, ht]

theorem formatInt_injective : Function.Injective formatInt := by
  intro a b h
  unfold formatInt at h
  by_cases ha : a = 0 <;> by_cases hb : b = 0
  · rw [ha, hb]
  · exfalso
    rw [if_pos ha, if_neg hb] at h
    have hd := congrArg String.data h
    have hz : String.data "0" = ['0'] := rfl
    rw [hz, String.data] at hd
    obtain ⟨d, hdig⟩ : ∃ d, Nat.digits 10 b = [d] := by
      rcases hrev : (Nat.digits 10 b).reverse with _ | ⟨d, t⟩
      · rw [hrev] at hd; simp at hd
      · rcases t with _ | ⟨d2, t2⟩
        · exact ⟨d, by simpa using congrArg List.reverse hrev⟩
        · rw [hrev] at hd; simp at hd
    rw [hdig] at hd
    simp only [List.reverse_singleton, List.map_cons, List.map_nil] at hd
    have hd10 : d < 10 :=
      Nat.digits_lt_base (by norm_num) (by rw [hdig]; exact List.mem_singleton_self d)
    have hd0 : d = 0 := by
      have h0 : Nat.digitChar d = Nat.digitChar 0 := by
        rw [show Nat.digitChar 0 = '0' from rfl]
        exact (List.cons.injEq .. ▸ hd).1.symm
      exact digitChar_inj_lt d hd10 0 (by norm_num) h0
    have : b = 0 := by
      have := Nat.ofDigits_digits 10 b
      rw [hdig, hd0] at this
      simpa [Nat.ofDigits] using this.symm
    exact hb this
  · exfalso
    rw [if_neg ha, if_pos hb] at h
    have hd := congrArg String.data h.symm
    have hz : String.data "0" = ['0'] := rfl
    rw [hz, String.data] at hd
    obtain ⟨d, hdig⟩ : ∃ d, Nat.digits 10 a = [d] := by
      rcases hrev : (Nat.digits 10 a).reverse with _ | ⟨d, t⟩
      · rw [hrev] at hd; simp at hd
      · rcases t with _ | ⟨d2, t2⟩
        · exact ⟨d, by simpa using congrArg List.reverse hrev⟩
        · rw [hrev] at hd; simp at hd
    rw [hdig] at hd
    simp only [List.reverse_singleton, List.map_cons, List.map_nil] at hd
    have hd10 : d < 10 :=
      Nat.digits_lt_base (by norm_num) (by rw [hdig]; exact List.mem_singleton_self d)
    have hd0 : d = 0 := by
      have h0 : Nat.digitChar d = Nat.digitChar 0 := by
        rw [show Nat.digitChar 0 = '0' from rfl]
        exact (List.cons.injEq .. ▸ hd).1.symm
      exact digitChar_inj_lt d hd10 0 (by norm_num) h0
    have : a = 0 := by
      have := Nat.ofDigits_digits 10 a
      rw [hdig, hd0] at this
      simpa [Nat.ofDigits] using this.symm
    exact ha this
  · rw [if_neg ha, if_neg hb] at h
    have hd := congrArg String.data h
    simp only [String.data] at hd
    have hrev : (Nat.digits 10 a).reverse = (Nat.digits 10 b).reverse :=
      map_digitChar_inj _ _
        (fun d hdm => Nat.digits_lt_base (by norm_num) (List.mem_reverse.1 hdm))
        (fun d hdm => Nat.digits_lt_base (by norm_num) (List.mem_reverse.1 hdm)) hd
    have hdig : Nat.digits 10 a = Nat.digits 10 b :=
      List.reverse_injective hrev
    exact Nat.digits_inj_iff.1 hdig

theorem mem_mIf {x m : Measurement} {b : Bool} (h : m ∈ mIf b x) :
    b = true ∧ m = x := by
  cases b
  · simp [mIf] at h
  · simp [mIf] at h
    exact ⟨rfl, h⟩

theorem mem_enum_getElem {α : Type} {l : List α} {p : Nat × α} (h : p ∈ l.enum) :
    l[p.1]? = some p.2 := by
  obtain ⟨i, hi⟩ := List.mem_iff_getElem?.1 h
  rw [List.getElem?_enum] at hi
  rcases ho : l[i]? with _ | a
  · rw [ho] at hi; simp at hi
  · rw [ho] at hi
    simp only [Option.map_some', Option.some.injEq] at hi
    rw [← hi]
    exact ho

/-- C7: with a successful GetVcpus result, the vCPU section is the merge of
the state/time/host-cpu half (from GetVcpus, labelled by the reported vCPU
number) and the wait/delay half (from the bulk per-vCPU array, labelled by
array position): every vCPU of the first half emits its three
measurements, and a vCPU index whose wait/delay entry is absent or has
both presence flags unset gets no wait and no delay measurement at all. -/
theorem vcpu_two_path_merge (dn : String) (vcpus : List VcpuInfo)
    (sv : List DomainStatsVcpu) (v : VcpuInfo) (hv : v ∈ vcpus)
    (hw : ∀ w, sv[v.Number]? = some w → w.WaitSet = false ∧ w.DelaySet = false) :
    ((⟨.vcpuState, .gauge, (v.State : ℚ), [dn, formatInt v.Number]⟩ : Measurement) ∈
       (vcpuSection dn (.ok vcpus) sv).1 ∧
     (⟨.vcpuTime, .counter, (v.CpuTime : ℚ) / 1000 / 1000 / 1000,
        [dn, formatInt v.Number]⟩ : Measurement) ∈ (vcpuSection dn (.ok vcpus) sv).1 ∧
     (⟨.vcpuCpu, .gauge, (v.Cpu : ℚ), [dn, formatInt v.Number]⟩ : Measurement) ∈
       (vcpuSection dn (.ok vcpus) sv).1) ∧
    (∀ m ∈ (vcpuSection dn (.ok vcpus) sv).1,
      m.desc = .vcpuWait ∨ m.desc = .vcpuDelay →
      m.labels ≠ [dn, formatInt v.Number]) := by
  have hsec : (vcpuSection dn (.ok vcpus) sv).1 =
      vcpuInfoMetrics dn vcpus ++ vcpuWaitDelayMetrics dn sv := rfl
  constructor
  · refine ⟨?_, ?_, ?_⟩ <;>
      · rw [hsec]
        apply List.mem_append_left
        simp only [vcpuInfoMetrics, List.mem_flatMap]
        exact ⟨v, hv, by simp⟩
  · intro m hm hdesc heq
    rw [hsec] at hm
    rcases List.mem_append.1 hm with hm' | hm'
    · simp only [vcpuInfoMetrics, List.mem_flatMap] at hm'
      obtain ⟨u, _, hmem⟩ := hm'
      simp only [List.mem_cons, List.not_mem_nil, or_false] at hmem
      rcases hdesc with hd | hd <;>
        rcases hmem with h1 | h1 | h1 <;> rw [h1] at hd <;> simp at hd
    · simp only [vcpuWaitDelayMetrics, List.mem_flatMap] at hm'
      obtain ⟨p, hp, hmem⟩ := hm'
      have hget : sv[p.1]? = some p.2 := mem_enum_getElem hp
      rcases List.mem_append.1 hmem with hw' | hw' <;>
        obtain ⟨hflag, hmx⟩ := mem_mIf hw' <;>
        · rw [hmx] at heq
          simp only [Measurement.labels, List.cons.injEq, and_true, true_and] at heq
          have hp1 : p.1 = v.Number := formatInt_injective heq
          rw [hp1] at hget
          have hflags := hw p.2 hget
          simp [hflags.1, hflags.2] at hflag

/-- C7 witness: vCPU number 3 reported by GetVcpus and an empty bulk
per-vCPU array: the three state/time/host-cpu measurements are emitted and
no wait or delay measurement carries the index 3 label. -/
theorem vcpu_two_path_merge_witness :
    ((⟨.vcpuState, .gauge, ((1 : Int) : ℚ), ["dom0", formatInt 3]⟩ : Measurement) ∈
       (vcpuSection "dom0" (.ok vcpusOnly3) []).1 ∧
     (⟨.vcpuTime, .counter, ((5000000000 : Nat) : ℚ) / 1000 / 1000 / 1000,
        ["dom0", formatInt 3]⟩ : Measurement) ∈ (vcpuSection "dom0" (.ok vcpusOnly3) []).1 ∧
     (⟨.vcpuCpu, .gauge, ((0 : Int) : ℚ), ["dom0", formatInt 3]⟩ : Measurement) ∈
       (vcpuSection "dom0" (.ok vcpusOnly3) []).1) ∧
    (∀ m ∈ (vcpuSection "dom0" (.ok vcpusOnly3) []).1,
      m.desc = .vcpuWait ∨ m.desc = .vcpuDelay →
      m.labels ≠ ["dom0", formatInt 3]) :=
  vcpu_two_path_merge "dom0" vcpusOnly3 [] ⟨3, 1, 5000000000, 0⟩
    (by simp [vcpusOnly3]) (by simp)
